import Mathlib

/-!
Verification of the claim-extraction core of promopack-extractor.

Shallow embedding of `src/claim_validation.py` and `src/llm_integration.py`:
Python strings are Lean `String`s, the regular expressions used by the
validator and the regex fallback are embedded via a small backtracking
regex engine whose candidate lists are ordered by Python backtracking
priority (so the head of the list is the match Python would report),
Python floats are modelled as rationals, `time.time()` values as naturals,
and the external `lx.extract` capability as an oracle indexed by the
number of calls made so far.
-/

namespace PromoPack

/-- Python whitespace for `str.split` / `str.strip` / regex `\s` (ASCII range). -/
def pyIsSpace (c : Char) : Bool :=
  c = ' ' || c = '\t' || c = '\n' || c = '\r' || c = Char.ofNat 11 || c = Char.ofNat 12

/-- `str.strip()`: drop whitespace from both ends. -/
def pyStrip (s : String) : String :=
  String.mk (((s.data.dropWhile pyIsSpace).reverse.dropWhile pyIsSpace).reverse)

/-- Helper for `pyWords`; the fuel (strictly more than the characters left)
only serves structural termination and never runs out. -/
def pyWordsAux : Nat → List Char → List String
  | 0, _ => []
  | _ + 1, [] => []
  | fuel + 1, c :: cs =>
    if pyIsSpace c then pyWordsAux fuel cs
    else
      String.mk (List.takeWhile (fun x => !pyIsSpace x) (c :: cs)) ::
        pyWordsAux fuel (List.dropWhile (fun x => !pyIsSpace x) cs)

/-- The whitespace-separated words of `str.split()` (empty strings discarded). -/
def pyWords (cs : List Char) : List String := pyWordsAux (cs.length + 1) cs

/-- `len(text.split())`. -/
def wordCount (s : String) : Nat := (pyWords s.data).length

/-- `text[:n]` (character slicing). -/
def pyTake (s : String) (n : Nat) : String := String.mk (s.data.take n)

/-- The character slice `text[b:e]`. -/
def sliceStr (s : List Char) (b e : Nat) : String := String.mk ((s.drop b).take (e - b))

/-- `str.endswith(suffix)`. -/
def pyEndsWith (s suf : String) : Bool := suf.data.isSuffixOf s.data

/-- `str.endswith(tuple)`. -/
def pyEndsWithAny (s : String) (sufs : List String) : Bool := sufs.any (pyEndsWith s)

/-- `str.startswith(tuple)`. -/
def pyStartsWithAny (s : String) (prefs : List String) : Bool :=
  prefs.any (fun p => p.data.isPrefixOf s.data)

/-- `str.lower()` (ASCII case folding). -/
def pyLower (s : String) : String := String.mk (s.data.map Char.toLower)

/-- `sub in s` (substring containment). -/
def strContains (s sub : String) : Bool :=
  (List.range (s.data.length + 1)).any (fun i => sub.data.isPrefixOf (s.data.drop i))

/-- Helper for `pyReplace`; the fuel only serves structural termination. -/
def pyReplaceAux (pat rep : List Char) : Nat → List Char → List Char
  | 0, cs => cs
  | _ + 1, [] => []
  | fuel + 1, c :: cs =>
    if pat.isPrefixOf (c :: cs) then
      rep ++ pyReplaceAux pat rep fuel (List.drop pat.length (c :: cs))
    else
      c :: pyReplaceAux pat rep fuel cs

/-- `str.replace(pat, rep)` for a non-empty pattern: replace every
non-overlapping occurrence, scanning left to right. -/
def pyReplace (s pat rep : String) : String :=
  String.mk (pyReplaceAux pat.data rep.data (s.data.length + 1) s.data)

/-- `s.count(c)` for a single character. -/
def pyCountChar (s : String) (c : Char) : Nat := s.data.count c

/-- Regex `\w` word characters (ASCII approximation of Python `\w`). -/
def wordChar (c : Char) : Bool := c.isAlphanum || c = '_'

/-- Python `\b`: position between a word character and a non-word character. -/
def isWordBoundary (s : List Char) (i : Nat) : Bool :=
  let before := match i with
    | 0 => false
    | j + 1 => (s.get? j).elim false wordChar
  let after := (s.get? i).elim false wordChar
  before != after

/-- Abstract syntax of the regular-expression fragment the source uses.
Stars carry their Python quantifier flavour so that candidate match ends
can be listed in backtracking priority order. -/
inductive RE where
  | eps
  | cls (p : Char → Bool)
  | seq (a b : RE)
  | alt (a b : RE)
  | starL (a : RE)
  | starG (a : RE)
  | bdry
  | bol
  | eol

/-- Lazy-star expansion: shortest continuation first (fuelled by the input length). -/
def RE.runStarL (step : Nat → List Nat) : Nat → Nat → List Nat
  | 0, i => [i]
  | fuel + 1, i =>
    i :: ((step i).filter (fun j => i < j)).flatMap (RE.runStarL step fuel)

/-- Greedy-star expansion: longest continuation first. -/
def RE.runStarG (step : Nat → List Nat) : Nat → Nat → List Nat
  | 0, i => [i]
  | fuel + 1, i =>
    (((step i).filter (fun j => i < j)).flatMap (RE.runStarG step fuel)) ++ [i]

/-- All candidate end positions of a match of `r` starting at position `i`
of `s`, in Python backtracking priority order (head = the end Python reports). -/
def RE.run (s : List Char) : RE → Nat → List Nat
  | .eps, i => [i]
  | .cls p, i =>
    match s.get? i with
    | some c => if p c then [i + 1] else []
    | none => []
  | .seq a b, i => (RE.run s a i).flatMap (fun j => RE.run s b j)
  | .alt a b, i => RE.run s a i ++ RE.run s b i
  | .starL a, i => RE.runStarL (fun j => RE.run s a j) (s.length + 1) i
  | .starG a, i => RE.runStarG (fun j => RE.run s a j) (s.length + 1) i
  | .bdry, i => if isWordBoundary s i then [i] else []
  | .bol, i => if i = 0 then [i] else []
  | .eol, i =>
    if i = s.length || (i + 1 = s.length && s.get? i = some '\n') then [i] else []

/-- `re.search(r, t)`: does `r` match starting at some position of `t`? -/
def RE.search (r : RE) (t : String) : Bool :=
  (List.range (t.data.length + 1)).any (fun i => !(RE.run t.data r i).isEmpty)

/-- First match at a position `≥ i`: Python scans starts left to right and at
each start reports the highest-priority end. -/
def RE.findAux (r : RE) (s : List Char) : Nat → Nat → Option (Nat × Nat)
  | 0, _ => none
  | fuel + 1, i =>
    match RE.run s r i with
    | e :: _ => some (i, e)
    | [] => RE.findAux r s fuel (i + 1)

/-- `re.finditer`: non-overlapping matches, scanning left to right. -/
def RE.finditerAux (r : RE) (s : List Char) : Nat → Nat → List (Nat × Nat)
  | 0, _ => []
  | fuel + 1, pos =>
    match RE.findAux r s (s.length + 1 - pos) pos with
    | none => []
    | some (b, e) => (b, e) :: RE.finditerAux r s fuel (max e (b + 1))

/-- The list of `(start, end)` spans produced by `re.finditer(r, s)`. -/
def RE.finditer (r : RE) (s : List Char) : List (Nat × Nat) :=
  RE.finditerAux r s (s.length + 1) 0

/-- Case-sensitive single character. -/
def RE.chr (c : Char) : RE := .cls (fun x => x = c)

/-- Case-insensitive single character (`re.IGNORECASE`). -/
def RE.ichr (c : Char) : RE := .cls (fun x => x.toLower = c.toLower)

/-- Case-sensitive literal string. -/
def RE.str (s : String) : RE := (s.data.map RE.chr).foldr RE.seq RE.eps

/-- Case-insensitive literal string. -/
def RE.istr (s : String) : RE := (s.data.map RE.ichr).foldr RE.seq RE.eps

/-- Concatenation of a list of pieces. -/
def RE.cat (rs : List RE) : RE := rs.foldr RE.seq RE.eps

/-- Ordered alternation `(r1|r2|...)`. -/
def RE.alts : List RE → RE
  | [] => .cls (fun _ => false)
  | [r] => r
  | r :: rs => .alt r (RE.alts rs)

/-- Greedy `r?`. -/
def RE.opt (r : RE) : RE := .alt r .eps

/-- Greedy `r+`. -/
def RE.plus (r : RE) : RE := .seq r (.starG r)

/-- Greedy `r{2,}`. -/
def RE.rep2 (r : RE) : RE := .seq r (.seq r (.starG r))

/-- Regex `\d` (ASCII digits). -/
def RE.digit : RE := .cls Char.isDigit

/-- Regex `\s`. -/
def RE.ws : RE := .cls pyIsSpace

/-- Regex `\w`. -/
def RE.wrd : RE := .cls wordChar

/-- Regex `.` without `re.DOTALL`: any character except a newline. -/
def RE.dot : RE := .cls (fun c => c ≠ '\n')

/-- Lazy gap `.*?`. -/
def RE.lazyGap : RE := .starL RE.dot

/-- Case-insensitive character class given by its lowercase members. -/
def RE.iset (cs : List Char) : RE := .cls (fun c => cs.contains c.toLower)

/-- `[A-Za-z]` (and `[A-Z]` / `[a-zA-Z]` under `re.IGNORECASE`). -/
def RE.alpha : RE := .cls Char.isAlpha

/-- Types of pharmaceutical regulatory claims (`ClaimType`). -/
inductive ClaimType where
  | EFFICACY
  | SAFETY
  | INDICATION
  | CONTRAINDICATION
  | DOSING
  | PHARMACOKINETIC
  | COMPARATIVE
  | MECHANISM
  | POPULATION
deriving DecidableEq

/-- Warning flags for low-quality or borderline extractions (`ValidationWarning`). -/
inductive ValidationWarning where
  | INCOMPLETE_SENTENCE
  | MISSING_SUBJECT
  | MISSING_VERB
  | LOW_WORD_COUNT
  | FRAGMENT
  | QUESTION_FORM
  | TABLE_HEADER
  | CITATION_ONLY
  | BOILERPLATE
  | BACKGROUND_INFO
  | STUDY_METHODOLOGY
  | TOO_TRIVIAL
  | NO_DRUG_MENTION
  | CONTEXT_DEPENDENT
deriving DecidableEq

/-- Result of claim validation (`ClaimValidationResult`); the float
`confidence_adjustment` is modelled as a rational. -/
structure ClaimValidationResult where
  is_valid : Bool
  warnings : List ValidationWarning
  reasoning : String
  confidence_adjustment : Rat
  has_subject : Bool
  has_verb : Bool
  is_complete : Bool
  is_about_drug : Bool
  requires_evidence : Bool
deriving DecidableEq

namespace ClaimValidator

/-- `self.background_patterns`, searched with `re.IGNORECASE`. -/
def background_patterns : List RE :=
  [RE.cat [.bdry,
      RE.alts [RE.cat [RE.istr "affect", RE.opt (RE.ichr 's')],
               RE.cat [RE.istr "afflict", RE.opt (RE.ichr 's')]],
      RE.plus RE.ws, RE.plus RE.digit,
      RE.opt (RE.cat [RE.chr '.', RE.plus RE.digit]),
      RE.plus RE.ws,
      RE.alts [RE.istr "million", RE.istr "billion", RE.istr "thousand"]],
   RE.cat [RE.istr "is", RE.plus RE.ws, RE.istr "a", RE.plus RE.ws,
      RE.alts [RE.istr "common", RE.istr "rare", RE.istr "chronic",
               RE.istr "serious", RE.istr "life-threatening"],
      RE.plus RE.ws,
      RE.alts [RE.istr "condition", RE.istr "disease", RE.istr "disorder"]],
   RE.cat [.bdry,
      RE.alts [RE.istr "epidemiology", RE.istr "prevalence", RE.istr "incidence"],
      .bdry]]

/-- `self.methodology_patterns`, searched with `re.IGNORECASE`. -/
def methodology_patterns : List RE :=
  [RE.cat [.bdry, RE.alts [RE.istr "were", RE.istr "was"], RE.plus RE.ws,
      RE.alts [RE.istr "randomized", RE.istr "enrolled", RE.istr "assigned",
               RE.istr "stratified"]],
   RE.cat [.bdry, RE.istr "trial", RE.plus RE.ws,
      RE.alts [RE.istr "enrolled", RE.istr "recruited", RE.istr "included"]],
   RE.cat [.bdry, RE.istr "study", RE.plus RE.ws, RE.istr "design", .bdry],
   RE.cat [.bdry, RE.alts [RE.istr "primary", RE.istr "secondary"], RE.plus RE.ws,
      RE.istr "endpoint", RE.plus RE.ws, RE.alts [RE.istr "was", RE.istr "were"]],
   RE.cat [.bdry, RE.istr "patient", RE.opt (RE.ichr 's'), RE.plus RE.ws,
      RE.alts [RE.istr "received", RE.istr "underwent"], .bdry],
   RE.cat [.bdry, RE.istr "subject", RE.opt (RE.ichr 's'), RE.plus RE.ws,
      RE.alts [RE.istr "were", RE.istr "was"], RE.plus RE.ws,
      RE.alts [RE.istr "given", RE.istr "administered"]]]

/-- `self.structural_patterns`, searched case-sensitively. -/
def structural_patterns : List RE :=
  [RE.cat [.bol,
      RE.alts [RE.str "Table", RE.str "Figure", RE.str "Chart", RE.str "Graph",
               RE.str "Appendix"],
      RE.plus RE.ws, RE.plus RE.digit],
   RE.cat [.bol, RE.plus RE.digit, RE.chr '.', RE.plus RE.ws,
      RE.cls (fun c => 'A' ≤ c && c ≤ 'Z')],
   RE.cat [.bol, RE.plus (RE.cls (fun c => ('A' ≤ c && c ≤ 'Z') || pyIsSpace c)),
      RE.chr ':', .eol],
   RE.cat [RE.chr '|', RE.plus RE.ws, RE.plus RE.wrd, RE.plus RE.ws, RE.chr '|']]

/-- `self.boilerplate_patterns`, searched with `re.IGNORECASE`. -/
def boilerplate_patterns : List RE :=
  [RE.cat [RE.istr "see", RE.plus RE.ws,
      RE.opt (RE.cat [RE.istr "full", RE.plus RE.ws]),
      RE.istr "prescribing", RE.plus RE.ws, RE.istr "information"],
   RE.cat [RE.istr "refer", RE.plus RE.ws, RE.istr "to", RE.plus RE.ws,
      RE.istr "package", RE.plus RE.ws, RE.istr "insert"],
   RE.cat [RE.istr "consult", RE.plus RE.ws, RE.istr "the", RE.plus RE.ws,
      RE.istr "full", RE.plus RE.ws, RE.istr "label"],
   RE.cat [RE.istr "individual", RE.plus RE.ws, RE.istr "results", RE.plus RE.ws,
      RE.istr "may", RE.plus RE.ws, RE.istr "vary"],
   RE.cat [RE.istr "ask", RE.plus RE.ws, RE.istr "your", RE.plus RE.ws,
      RE.alts [RE.istr "doctor", RE.istr "physician",
               RE.cat [RE.istr "healthcare", RE.plus RE.ws, RE.istr "provider"]]]]

/-- `self.question_patterns`, searched with `re.IGNORECASE`. -/
def question_patterns : List RE :=
  [RE.cat [.bol,
      RE.alts [RE.istr "what", RE.istr "when", RE.istr "where", RE.istr "why",
               RE.istr "how", RE.istr "who", RE.istr "which"],
      RE.plus RE.ws],
   RE.cat [RE.chr '?', .eol]]

/-- `self.citation_patterns`, searched case-sensitively. -/
def citation_patterns : List RE :=
  [RE.cat [.bol, RE.chr '(', RE.plus RE.alpha, RE.plus RE.ws, RE.str "et",
      RE.plus RE.ws, RE.str "al", RE.cls (fun c => c = '.' || c = ',')],
   RE.cat [RE.chr '(', RE.str "PMID", RE.cls (fun c => c = ':' || c = '='),
      RE.starG RE.ws, RE.plus RE.digit, RE.chr ')'],
   RE.cat [RE.chr '(', RE.str "doi", RE.cls (fun c => c = ':' || c = '=')],
   RE.cat [.bol, RE.chr '[', RE.plus RE.digit,
      RE.starG (RE.cls (fun c => c = ',' || pyIsSpace c || c.isDigit)), RE.chr ']'],
   RE.cat [RE.chr '(', RE.str "NCT", RE.opt (RE.chr '-'), RE.plus RE.digit,
      RE.chr ')']]

/-- `self.claim_verb_patterns`, searched with `re.IGNORECASE`. -/
def claim_verb_patterns : List RE :=
  [RE.cat [.bdry,
      RE.alts [RE.cat [RE.istr "reduc",
                  RE.alts [RE.cat [RE.ichr 'e', RE.opt (RE.ichr 's')],
                           RE.istr "ed", RE.istr "ing", RE.istr "tion"]],
               RE.cat [RE.istr "decreas",
                  RE.alts [RE.cat [RE.ichr 'e', RE.opt (RE.ichr 's')],
                           RE.istr "ed", RE.istr "ing"]]]],
   RE.cat [.bdry, RE.istr "improv",
      RE.alts [RE.cat [RE.ichr 'e', RE.opt (RE.ichr 's')],
               RE.istr "ed", RE.istr "ing", RE.istr "ement"]],
   RE.cat [.bdry, RE.istr "prevent",
      RE.alts [RE.opt (RE.ichr 's'), RE.istr "ed", RE.istr "ing", RE.istr "ion"]],
   RE.cat [.bdry, RE.istr "achiev",
      RE.alts [RE.cat [RE.ichr 'e', RE.opt (RE.ichr 's')],
               RE.istr "ed", RE.istr "ing"]],
   RE.cat [.bdry, RE.istr "demonstrat",
      RE.alts [RE.cat [RE.ichr 'e', RE.opt (RE.ichr 's')],
               RE.istr "ed", RE.istr "ing"]],
   RE.cat [.bdry, RE.istr "show",
      RE.alts [RE.opt (RE.ichr 's'), RE.istr "ed", RE.istr "ing", RE.istr "n"]],
   RE.cat [.bdry, RE.istr "indicat",
      RE.alts [RE.cat [RE.ichr 'e', RE.opt (RE.ichr 's')], RE.istr "ed"],
      RE.plus RE.ws, RE.istr "for"],
   RE.cat [.bdry, RE.istr "contraindicated", RE.plus RE.ws, RE.istr "in"],
   RE.cat [.bdry, RE.istr "recommended", RE.plus RE.ws, RE.istr "dose"],
   RE.cat [.bdry, RE.istr "should", RE.plus RE.ws,
      RE.opt (RE.cat [RE.istr "not", RE.plus RE.ws]),
      RE.istr "be", RE.plus RE.ws,
      RE.alts [RE.istr "used", RE.istr "administered"]],
   RE.cat [.bdry, RE.istr "may", RE.plus RE.ws, RE.istr "cause"],
   RE.cat [.bdry, RE.istr "well-tolerated"],
   RE.cat [.bdry,
      RE.alts [RE.cat [RE.istr "superior", RE.plus RE.ws, RE.istr "to"],
               RE.cat [RE.istr "inferior", RE.plus RE.ws, RE.istr "to"],
               RE.istr "non-inferior"]]]

/-- `self.comparative_patterns`, searched with `re.IGNORECASE` by
`is_comparative_claim` and case-sensitively on lowered text by
`classify_claim_type` (identical behaviour for these all-letter patterns). -/
def comparative_patterns : List RE :=
  [RE.cat [.bdry,
      RE.alts [RE.cat [RE.istr "vs", RE.opt (RE.chr '.')],
               RE.istr "versus",
               RE.cat [RE.istr "compared", RE.plus RE.ws,
                  RE.alts [RE.istr "to", RE.istr "with"]]],
      .bdry],
   RE.cat [.bdry,
      RE.alts [RE.istr "superior", RE.istr "inferior", RE.istr "non-inferior",
               RE.istr "equivalent"],
      RE.plus RE.ws, RE.istr "to", .bdry],
   RE.cat [.bdry, RE.alts [RE.istr "better", RE.istr "worse"], RE.plus RE.ws,
      RE.istr "than", .bdry],
   RE.cat [.bdry, RE.alts [RE.istr "more", RE.istr "less"], RE.plus RE.ws,
      RE.plus RE.wrd, RE.plus RE.ws, RE.istr "than", .bdry]]

/-- `self.statistical_patterns`, searched with `re.IGNORECASE`. -/
def statistical_patterns : List RE :=
  [RE.cat [.bdry, RE.ichr 'p', RE.starG RE.ws,
      RE.cls (fun c => c = '<' || c = '>' || c = '='), RE.starG RE.ws,
      RE.opt (RE.chr '0'), RE.chr '.', RE.plus RE.digit],
   RE.cat [.bdry, RE.alts [RE.str "95", RE.str "99"], RE.chr '%',
      RE.starG RE.ws, RE.istr "CI", .bdry],
   RE.cat [.bdry, RE.istr "HR", RE.starG RE.ws, RE.opt (RE.chr '='),
      RE.starG RE.ws, RE.plus RE.digit, RE.chr '.', RE.plus RE.digit],
   RE.cat [.bdry, RE.istr "OR", RE.starG RE.ws, RE.opt (RE.chr '='),
      RE.starG RE.ws, RE.plus RE.digit, RE.chr '.', RE.plus RE.digit],
   RE.cat [RE.plus RE.digit, RE.opt (RE.cat [RE.chr '.', RE.plus RE.digit]),
      RE.chr '%', RE.plus RE.ws,
      RE.alts [RE.istr "reduction", RE.istr "increase", RE.istr "improvement",
               RE.istr "decrease"]]]

/-- `self.drug_action_words` (a Python set; only membership tests are used). -/
def drug_action_words : List String :=
  ["reduces", "decreases", "improves", "prevents", "treats", "indicated",
   "contraindicated", "administered", "dosed", "tolerated", "effective", "safe"]

/-- The verb heuristic of `_check_completeness`, with `re.IGNORECASE`. -/
def completeness_verb_re : RE :=
  RE.cat [.bdry,
    RE.alts [RE.istr "is", RE.istr "are", RE.istr "was", RE.istr "were",
      RE.cat [RE.istr "reduce", RE.opt (RE.iset ['d', 's'])],
      RE.cat [RE.istr "improve", RE.opt (RE.iset ['d', 's'])],
      RE.cat [RE.istr "prevent", RE.opt (RE.iset ['d', 's'])],
      RE.cat [RE.istr "cause", RE.opt (RE.iset ['d', 's'])],
      RE.cat [RE.istr "show", RE.opt (RE.iset ['n', 's'])],
      RE.cat [RE.istr "demonstrate", RE.opt (RE.iset ['d', 's'])],
      RE.cat [RE.istr "achieve", RE.opt (RE.iset ['d', 's'])],
      RE.cat [RE.istr "indicate", RE.opt (RE.iset ['d', 's'])],
      RE.cat [RE.istr "recommend", RE.opt (RE.iset ['s'])],
      RE.cat [RE.istr "contraindicate", RE.opt (RE.iset ['d', 's'])],
      RE.cat [RE.istr "tolerate", RE.opt (RE.iset ['d', 's'])],
      RE.cat [RE.istr "occur", RE.opt (RE.iset ['r', 's'])],
      RE.cat [RE.istr "report", RE.opt (RE.iset ['s']), RE.istr "ed"],
      RE.cat [RE.istr "observe", RE.opt (RE.iset ['d', 's'])],
      RE.istr "may", RE.istr "should", RE.istr "will", RE.istr "can",
      RE.istr "had", RE.istr "have", RE.istr "has"],
    .bdry]

/-- The subject heuristic of `_check_completeness`, with `re.IGNORECASE`
(under which `[A-Z]` and `[a-zA-Z]` both match any ASCII letter). -/
def subject_re : RE :=
  RE.cat [.bdry,
    RE.alts [RE.cat [RE.alpha, RE.rep2 RE.alpha],
      RE.cat [RE.istr "patient", RE.opt (RE.ichr 's')],
      RE.cat [RE.istr "subject", RE.opt (RE.ichr 's')],
      RE.istr "treatment", RE.istr "therapy", RE.istr "drug", RE.istr "dose",
      RE.istr "study", RE.istr "trial", RE.istr "adverse",
      RE.cat [RE.istr "event", RE.opt (RE.ichr 's')],
      RE.istr "bleeding", RE.istr "efficacy", RE.istr "safety",
      RE.istr "indication", RE.istr "contraindication", RE.istr "risk"],
    .bdry]

/-- The trivial-statement patterns of `_requires_evidence`, with `re.IGNORECASE`. -/
def trivial_patterns : List RE :=
  [RE.cat [RE.istr "is", RE.plus RE.ws, RE.istr "a", RE.plus RE.ws,
      RE.alts [RE.istr "tablet", RE.istr "capsule", RE.istr "pill",
               RE.istr "liquid", RE.istr "injection"]],
   RE.cat [RE.istr "comes", RE.plus RE.ws, RE.istr "in", RE.plus RE.ws,
      RE.plus RE.digit, RE.starG RE.ws, RE.istr "mg"],
   RE.cat [RE.istr "is", RE.plus RE.ws,
      RE.alts [RE.istr "available", RE.istr "supplied"]],
   RE.cat [RE.istr "manufactured", RE.plus RE.ws, RE.istr "by"]]

/-- The outcome-keyword pattern of `_requires_evidence`, with `re.IGNORECASE`. -/
def outcome_re : RE :=
  RE.cat [.bdry,
    RE.alts [RE.istr "efficacy", RE.istr "safety", RE.istr "adverse",
      RE.istr "benefit", RE.istr "risk", RE.istr "response", RE.istr "survival",
      RE.istr "mortality", RE.istr "reduction", RE.istr "improvement"],
    .bdry]

/-- The trailing-conjunction pattern of `_is_likely_fragment` (no flags). -/
def fragment_tail_re : RE :=
  RE.cat [RE.alts [RE.str "and", RE.str "or", RE.str "but"], RE.starG RE.ws, .eol]

/-- The bare-percentage pattern of `_is_likely_fragment` (no flags). -/
def bare_percent_re : RE :=
  RE.cat [.bol, RE.plus RE.digit, RE.opt (RE.cat [RE.chr '.', RE.plus RE.digit]),
    RE.chr '%', RE.starG RE.ws, .eol]

/-- The reduced verb pattern of `_is_likely_fragment`, with `re.IGNORECASE`. -/
def fragment_verb_re : RE :=
  RE.cat [.bdry,
    RE.alts [RE.istr "is", RE.istr "are", RE.istr "was", RE.istr "were",
      RE.cat [RE.istr "reduce", RE.opt (RE.iset ['d', 's'])],
      RE.cat [RE.istr "improve", RE.opt (RE.iset ['d', 's'])],
      RE.cat [RE.istr "show", RE.opt (RE.iset ['n', 's'])],
      RE.cat [RE.istr "indicate", RE.opt (RE.iset ['d', 's'])],
      RE.cat [RE.istr "contraindicate", RE.opt (RE.iset ['d', 's'])]],
    .bdry]

/-- `any(re.search(pattern, text, ...) for pattern in patterns)`. -/
def anySearch (ps : List RE) (t : String) : Bool := ps.any (fun p => p.search t)

/-- `ClaimValidator._is_question`. -/
def _is_question (text : String) : Bool := anySearch question_patterns text

/-- `ClaimValidator._is_structural_element`. -/
def _is_structural_element (text : String) : Bool := anySearch structural_patterns text

/-- `ClaimValidator._is_citation_only`. -/
def _is_citation_only (text : String) : Bool :=
  if anySearch citation_patterns text then true
  else if text.data.length < 30 ∧ 0 < pyCountChar text '(' + pyCountChar text '[' then true
  else false

/-- `ClaimValidator._is_boilerplate`. -/
def _is_boilerplate (text : String) : Bool := anySearch boilerplate_patterns text

/-- `ClaimValidator._is_background_info`. -/
def _is_background_info (text : String) : Bool := anySearch background_patterns text

/-- `ClaimValidator._is_study_methodology`. -/
def _is_study_methodology (text : String) : Bool := anySearch methodology_patterns text

/-- `ClaimValidator._is_about_drug`. -/
def _is_about_drug (text : String) : Bool :=
  let has_claim_verb := anySearch claim_verb_patterns text
  let not_background := !(_is_background_info text)
  let not_methodology := !(_is_study_methodology text)
  has_claim_verb && not_background && not_methodology

/-- `ClaimValidator._mentions_drug_action`. -/
def _mentions_drug_action (text : String) : Bool :=
  let text_lower := pyLower text
  drug_action_words.any (fun w => strContains text_lower w)

/-- `ClaimValidator._requires_evidence`. -/
def _requires_evidence (text : String) : Bool :=
  if anySearch trivial_patterns text then false
  else
    let has_statistics := anySearch statistical_patterns text
    let has_outcome := outcome_re.search text
    has_statistics || has_outcome || _mentions_drug_action text

/-- `ClaimValidator._check_completeness`:
returns `(has_subject, has_verb, is_complete)`. -/
def _check_completeness (text : String) : Bool × Bool × Bool :=
  let has_verb := completeness_verb_re.search text
  let first_portion := pyTake text (max 50 (text.data.length / 3))
  let has_subject := subject_re.search first_portion || decide (wordCount text ≥ 6)
  let word_count := wordCount text
  let ends_reasonably :=
    !(pyEndsWithAny (pyStrip text) [",", "and", "or", "but", "with", "in", "of", "to"])
  let is_complete := decide (word_count ≥ 5) && ends_reasonably
  (has_subject, has_verb, is_complete)

/-- `ClaimValidator._is_likely_fragment`. -/
def _is_likely_fragment (text : String) : Bool :=
  if (text ≠ "" && (text.data.head?.elim false Char.isLower)
        && !pyStartsWithAny text ["p<", "p=", "p >", "rivaroxaban", "warfarin"])
      && decide (wordCount text < 4) then true
  else if fragment_tail_re.search (pyStrip text) then true
  else if bare_percent_re.search (pyStrip text) then true
  else if decide (wordCount text < 4) && !(fragment_verb_re.search text) then true
  else false

/-- `ClaimValidator._generate_reasoning`. -/
def _generate_reasoning (is_valid : Bool) (warnings : List ValidationWarning)
    (has_subject has_verb is_about_drug requires_evidence : Bool) : String :=
  if is_valid then
    let reasons := ["Valid regulatory claim"]
      ++ (if is_about_drug then ["makes assertion about drug"] else [])
      ++ (if requires_evidence then ["requires clinical evidence"] else [])
    String.intercalate "; " reasons
  else
    let reasons : List String :=
      (if !has_subject || !has_verb then ["incomplete sentence structure"] else [])
      ++ (if warnings.contains .FRAGMENT then ["appears to be sentence fragment"] else [])
      ++ (if warnings.contains .BACKGROUND_INFO then
            ["background information about disease, not drug claim"] else [])
      ++ (if warnings.contains .STUDY_METHODOLOGY then
            ["describes study methodology, not results"] else [])
      ++ (if warnings.contains .TABLE_HEADER then ["structural element (table/header)"] else [])
      ++ (if warnings.contains .BOILERPLATE then ["standard boilerplate language"] else [])
      ++ (if warnings.contains .QUESTION_FORM then ["question, not assertion"] else [])
      ++ (if warnings.contains .TOO_TRIVIAL then
            ["trivial statement not requiring evidence"] else [])
      ++ (if warnings.contains .LOW_WORD_COUNT then
            ["too short to be meaningful claim"] else [])
    let reasons := if reasons = [] then ["does not meet claim criteria"] else reasons
    "Rejected: " ++ String.intercalate "; " reasons

/-- `ClaimValidator.validate_claim` (the `request_id` parameter only feeds
logging and is omitted). -/
def validate_claim (text : String) : ClaimValidationResult :=
  let completeness := _check_completeness text
  let has_subject := completeness.1
  let has_verb := completeness.2.1
  let is_complete := completeness.2.2
  let word_count := wordCount text
  let is_background := _is_background_info text
  let is_methodology := _is_study_methodology text
  let is_about_drug0 := _is_about_drug text
  let is_about_drug1 := if is_background then false else is_about_drug0
  let is_about_drug := if is_methodology then false else is_about_drug1
  let requires_evidence := _requires_evidence text
  let is_fragment := _is_likely_fragment text
  let warnings : List ValidationWarning :=
    (if !is_complete then [.INCOMPLETE_SENTENCE] else [])
    ++ (if !has_subject then [.MISSING_SUBJECT] else [])
    ++ (if !has_verb then [.MISSING_VERB] else [])
    ++ (if word_count < 4 then [.LOW_WORD_COUNT] else [])
    ++ (if _is_question text then [.QUESTION_FORM] else [])
    ++ (if _is_structural_element text then [.TABLE_HEADER] else [])
    ++ (if _is_citation_only text then [.CITATION_ONLY] else [])
    ++ (if _is_boilerplate text then [.BOILERPLATE] else [])
    ++ (if is_background then [.BACKGROUND_INFO] else [])
    ++ (if is_methodology then [.STUDY_METHODOLOGY] else [])
    ++ (if !is_about_drug && !(_mentions_drug_action text) then [.NO_DRUG_MENTION] else [])
    ++ (if !requires_evidence then [.TOO_TRIVIAL] else [])
    ++ (if is_fragment then [.FRAGMENT, .CONTEXT_DEPENDENT] else [])
  let confidence_penalty : Rat :=
    0 + (if !is_complete then -(3 / 10 : Rat) else 0)
      + (if !has_subject then -(2 / 10 : Rat) else 0)
      + (if !has_verb then -(3 / 10 : Rat) else 0)
      + (if word_count < 4 then -(2 / 10 : Rat) else 0)
      + (if _is_question text then -(4 / 10 : Rat) else 0)
      + (if _is_structural_element text then -(5 / 10 : Rat) else 0)
      + (if _is_citation_only text then -(5 / 10 : Rat) else 0)
      + (if _is_boilerplate text then -(4 / 10 : Rat) else 0)
      + (if is_background then -(4 / 10 : Rat) else 0)
      + (if is_methodology then -(4 / 10 : Rat) else 0)
      + (if !is_about_drug && !(_mentions_drug_action text) then -(3 / 10 : Rat) else 0)
      + (if !requires_evidence then -(2 / 10 : Rat) else 0)
      + (if is_fragment then -(4 / 10 : Rat) else 0)
  let is_valid := is_complete && is_about_drug && requires_evidence
    && decide (word_count ≥ 4)
  let reasoning :=
    _generate_reasoning is_valid warnings has_subject has_verb is_about_drug requires_evidence
  { is_valid := is_valid
    warnings := warnings
    reasoning := reasoning
    confidence_adjustment := confidence_penalty
    has_subject := has_subject
    has_verb := has_verb
    is_complete := is_complete
    is_about_drug := is_about_drug
    requires_evidence := requires_evidence }

/-- The INDICATION pattern of `classify_claim_type` (searched on lowered text). -/
def indication_re : RE :=
  RE.alts [RE.cat [RE.str "indicat", RE.alts [RE.str "ed", RE.str "ion"],
              RE.plus RE.ws, RE.str "for"],
           RE.cat [RE.str "approved", RE.plus RE.ws, RE.str "for"],
           RE.cat [RE.str "treatment", RE.plus RE.ws, RE.str "of"]]

/-- The CONTRAINDICATION pattern of `classify_claim_type`. -/
def contraindication_re : RE :=
  RE.alts [RE.str "contraindicated",
           RE.cat [RE.str "should", RE.plus RE.ws, RE.str "not", RE.plus RE.ws,
              RE.str "be", RE.plus RE.ws, RE.str "used"],
           RE.cat [RE.str "avoid", RE.plus RE.ws,
              RE.opt (RE.cat [RE.str "use", RE.plus RE.ws]), RE.str "in"]]

/-- The DOSING pattern of `classify_claim_type`. -/
def dosing_re : RE :=
  RE.alts [RE.cat [RE.opt (RE.cat [RE.str "recommended", RE.plus RE.ws]),
              RE.str "dos", RE.alts [RE.str "e", RE.str "age", RE.str "ing"]],
           RE.cat [RE.str "administr", RE.alts [RE.str "ation", RE.str "ed"]],
           RE.cat [RE.str "once", RE.plus RE.ws, RE.str "daily"],
           RE.cat [RE.str "twice", RE.plus RE.ws, RE.str "daily"],
           RE.cat [RE.plus RE.digit, RE.starG RE.ws, RE.str "mg"]]

/-- The SAFETY pattern of `classify_claim_type`. -/
def safety_re : RE :=
  RE.alts [RE.cat [RE.str "adverse", RE.plus RE.ws,
              RE.alts [RE.str "event", RE.str "reaction", RE.str "effect"]],
           RE.cat [RE.str "side", RE.plus RE.ws, RE.str "effect"],
           RE.cat [RE.str "tolera", RE.alts [RE.str "ted", RE.str "bility"]],
           RE.str "bleeding", RE.str "safety"]

/-- The PHARMACOKINETIC pattern of `classify_claim_type`. -/
def pharmacokinetic_re : RE :=
  RE.alts [RE.str "auc", RE.str "cmax", RE.str "tmax", RE.str "half-life",
           RE.str "absorption", RE.str "metabolism", RE.str "excretion",
           RE.cat [RE.str "plasma", RE.plus RE.ws, RE.str "concentration"],
           RE.str "bioavailability"]

/-- The MECHANISM pattern of `classify_claim_type`. -/
def mechanism_re : RE :=
  RE.alts [RE.cat [RE.str "mechanism", RE.plus RE.ws, RE.str "of", RE.plus RE.ws,
              RE.str "action"],
           RE.str "inhibitor", RE.str "agonist", RE.str "antagonist",
           RE.cat [RE.str "binds", RE.plus RE.ws, RE.str "to"], RE.str "blocks"]

/-- The EFFICACY pattern of `classify_claim_type`. -/
def efficacy_re : RE :=
  RE.alts [RE.cat [RE.str "reduc", RE.alts [RE.str "ed", RE.str "es", RE.str "tion"]],
           RE.cat [RE.str "improv", RE.alts [RE.str "ed", RE.str "es", RE.str "ement"]],
           RE.cat [RE.str "prevent", RE.alts [RE.str "ed", RE.str "s", RE.str "ion"]],
           RE.str "efficacy",
           RE.cat [RE.str "response", RE.plus RE.ws, RE.str "rate"]]

/-- `ClaimValidator.classify_claim_type`. -/
def classify_claim_type (text : String) : Option ClaimType :=
  let text_lower := pyLower text
  if indication_re.search text_lower then some .INDICATION
  else if contraindication_re.search text_lower then some .CONTRAINDICATION
  else if dosing_re.search text_lower then some .DOSING
  else if safety_re.search text_lower then some .SAFETY
  else if comparative_patterns.any (fun p => p.search text_lower) then some .COMPARATIVE
  else if pharmacokinetic_re.search text_lower then some .PHARMACOKINETIC
  else if mechanism_re.search text_lower then some .MECHANISM
  else if efficacy_re.search text_lower then some .EFFICACY
  else none

/-- `ClaimValidator.is_comparative_claim`. -/
def is_comparative_claim (text : String) : Bool := anySearch comparative_patterns text

/-- `ClaimValidator.has_statistical_evidence`. -/
def has_statistical_evidence (text : String) : Bool := anySearch statistical_patterns text

end ClaimValidator

/-! Embedding of `src/llm_integration.py`. Exceptions become an error type,
`time.time()` values become naturals, and the external `lx.extract` call
becomes an oracle consulted once per invocation. -/

/-- The exception classes the orchestrator distinguishes. -/
inductive PyErr where
  | valueError (msg : String)
  | circuitOpenError
  | retryError
  | otherError
deriving DecidableEq

/-- Python `isinstance(e, ValueError)`. -/
def PyErr.isValueError : PyErr → Bool
  | .valueError _ => true
  | _ => false

/-- Circuit-breaker states (`"closed"`, `"open"`, `"half-open"`). -/
inductive CBState where
  | closed
  | opened
  | halfOpen
deriving DecidableEq

/-- The `CircuitBreaker` object of `llm_integration.py`. -/
structure CircuitBreaker where
  failure_threshold : Nat := 5
  recovery_timeout : Nat := 60
  failure_count : Nat := 0
  last_failure_time : Option Nat := none
  state : CBState := .closed
deriving DecidableEq

/-- `CircuitBreaker.call(func)` executed at time `now`. The wrapped function
is a state transformer (so that "func was not invoked" is visible as an
unchanged `σ`); the Python truthiness test `self.last_failure_time and ...`
is kept (a recorded time of `0` is falsy). -/
def CircuitBreaker.call {σ α : Type} (cb : CircuitBreaker) (now : Nat)
    (func : σ → Except PyErr α × σ) (s : σ) : (Except PyErr α × σ) × CircuitBreaker :=
  let gate : Except PyErr CircuitBreaker :=
    if cb.state = .opened then
      if cb.last_failure_time.any (fun t => t ≠ 0 && now - t > cb.recovery_timeout) then
        .ok { cb with state := .halfOpen }
      else
        .error .circuitOpenError
    else .ok cb
  match gate with
  | .error e => ((.error e, s), cb)
  | .ok cb1 =>
    match func s with
    | (.ok a, s2) =>
      let cb2 :=
        if cb1.state = .halfOpen then
          { cb1 with state := .closed, failure_count := 0 }
        else cb1
      ((.ok a, s2), cb2)
    | (.error e, s2) =>
      let fc := cb1.failure_count + 1
      let cb2 := { cb1 with
        failure_count := fc
        last_failure_time := some now
        state := if fc ≥ cb1.failure_threshold then .opened else cb1.state }
      ((.error e, s2), cb2)

/-- The module-level `llm_circuit_breaker` (threshold 3, timeout 300 s). -/
def llm_circuit_breaker : CircuitBreaker :=
  { failure_threshold := 3, recovery_timeout := 300 }

/-- `ModelType.GEMINI_FLASH.value`. -/
def GEMINI_FLASH : String := "gemini-1.5-flash"

/-- `ModelType.GEMINI_PRO.value`. -/
def GEMINI_PRO : String := "gemini-1.5-pro"

/-- An extraction record: `extraction_text`, the `"confidence"` attribute
(a float, modelled as a rational) and optional source spans. -/
structure Extraction where
  extraction_text : String
  confidence : Rat
  spans : Option (List (Nat × Nat)) := none
deriving DecidableEq

/-- The result object of one `lx.extract` call; `none` models an object
without an `extractions` attribute. -/
structure LXResult where
  extractions : Option (List Extraction)
deriving DecidableEq

/-- Behaviour of one external `lx.extract` invocation. -/
inductive LXOutcome where
  | ok (result : LXResult)
  | valueError (msg : String)
  | raiseOther
deriving DecidableEq

/-- The per-invocation log threaded through the retry loop: which model each
`lx.extract` call used, and the backoff waits slept between attempts. -/
structure CallLog where
  log : List String := []
  waits : List Nat := []
deriving DecidableEq

/-- One attempt of the inner body of `_extract_with_retry`: call `lx.extract`
(the oracle, indexed by the number of calls made so far) and rewrap an
empty/token `ValueError` as `"Empty LLM response from <model>"`. -/
def lxAttempt (oracle : Nat → LXOutcome) (modelId : String) (st : CallLog) :
    Except PyErr LXResult × CallLog :=
  let o := oracle st.log.length
  let st2 := { st with log := st.log ++ [modelId] }
  match o with
  | .ok r => (.ok r, st2)
  | .valueError msg =>
    if strContains (pyLower msg) "empty" || strContains (pyLower msg) "token" then
      (.error (.valueError ("Empty LLM response from " ++ modelId)), st2)
    else
      (.error (.valueError msg), st2)
  | .raiseOther => (.error .otherError, st2)

/-- `tenacity.wait_exponential(multiplier=1, min=4, max=10)` after the
`attempt`-th failed attempt: `max(max(0, min), min(multiplier * 2**attempt, max))`. -/
def tenacityWait (attempt : Nat) : Nat := max 4 (min (2 ^ attempt) 10)

/-- The `tenacity` retry loop around `lxAttempt`:
`stop_after_attempt(3)`, `retry_if_not_exception_type(ValueError)`.
A `ValueError` is re-raised at once; other failures are retried after a
backoff wait, and exhaustion raises `RetryError`. -/
def retryAttempts (oracle : Nat → LXOutcome) (modelId : String) :
    Nat → Nat → CallLog → Except PyErr LXResult × CallLog
  | 0, _, st => (.error .retryError, st)
  | n + 1, attempt, st =>
    match lxAttempt oracle modelId st with
    | (.ok r, st2) => (.ok r, st2)
    | (.error e, st2) =>
      if e.isValueError then (.error e, st2)
      else if n = 0 then (.error .retryError, st2)
      else retryAttempts oracle modelId n (attempt + 1)
        { st2 with waits := st2.waits ++ [tenacityWait attempt] }

/-- `_extract_with_retry` as decorated: at most 3 attempts, first attempt
numbered 1. -/
def _extract_with_retry (oracle : Nat → LXOutcome) (modelId : String)
    (st : CallLog) : Except PyErr LXResult × CallLog :=
  retryAttempts oracle modelId 3 1 st

/-- One claim dictionary produced by `fallback_claim_search`. -/
structure FallbackClaim where
  text : String
  confidence_score : Rat
  source_text : String
deriving DecidableEq

/-- The three regex patterns of `fallback_claim_search` (`re.IGNORECASE`). -/
def claim_patterns : List RE :=
  [RE.cat [RE.alts [RE.cat [RE.istr "reduce", RE.opt (RE.ichr 'd')],
              RE.cat [RE.istr "decrease", RE.opt (RE.ichr 'd')],
              RE.cat [RE.istr "improve", RE.opt (RE.ichr 'd')],
              RE.cat [RE.istr "increase", RE.opt (RE.ichr 'd')],
              RE.istr "effective"],
      RE.lazyGap,
      RE.alts [RE.cat [RE.plus RE.digit,
                  RE.opt (RE.cat [RE.chr '.', RE.plus RE.digit]), RE.chr '%'],
               RE.cat [RE.plus RE.digit,
                  RE.opt (RE.cat [RE.chr '.', RE.plus RE.digit]), RE.starG RE.ws,
                  RE.alts [RE.cat [RE.istr "time", RE.opt (RE.ichr 's')],
                           RE.istr "fold"]]]],
   RE.cat [RE.alts [RE.istr "study", RE.istr "trial", RE.istr "research"],
      RE.lazyGap,
      RE.alts [RE.istr "showed", RE.istr "demonstrated", RE.istr "found",
               RE.istr "revealed"]],
   RE.cat [RE.alts [RE.cat [RE.istr "patient", RE.opt (RE.ichr 's')],
              RE.cat [RE.istr "subject", RE.opt (RE.ichr 's')]],
      RE.lazyGap,
      RE.alts [RE.cat [RE.istr "experience", RE.opt (RE.ichr 'd')],
               RE.cat [RE.istr "achieve", RE.opt (RE.ichr 'd')],
               RE.istr "reported"]]]

/-- `fallback_claim_search`: regex scan, keeping stripped matches longer
than 20 characters, at confidence 0.7. -/
def fallback_claim_search (text : String) : List FallbackClaim :=
  claim_patterns.flatMap (fun p =>
    (RE.finditer p text.data).filterMap (fun m =>
      let claim_text := pyStrip (sliceStr text.data m.1 m.2)
      if claim_text.data.length > 20 then
        some { text := claim_text, confidence_score := (7 : Rat) / 10, source_text := text }
      else none))

/-- State threaded through `extract_claims_with_fallback`: the shared
circuit breaker, the `lx.extract` call log, the cost-tracker records
`(request_id, prompt_text, model)`, and how many breaker-guarded calls have
been made (to index the time schedule). -/
structure OrchState where
  breaker : CircuitBreaker
  calls : CallLog := {}
  costs : List (String × String × String) := []
  breakerCalls : Nat := 0
deriving DecidableEq

/-- The fresh orchestrator state of a process start. -/
def initialOrchState : OrchState := { breaker := llm_circuit_breaker }

/-- The `for model_id in models_to_try` loop of `extract_claims_with_fallback`.
Returns the extractions, method tag and model of the first successful model,
or `none` when the loop exhausts the chain. Each loop body is wrapped in
`try ... except Exception: continue`; the empty-text `ValueError` is raised
inside that same `try`. -/
def tryModels (text requestId prompt : String) (oracle : Nat → LXOutcome)
    (times : Nat → Nat) :
    List String → OrchState → Option (List Extraction × String × String) × OrchState
  | [], st => (none, st)
  | modelId :: rest, st =>
    if text = "" || pyStrip text = "" then
      tryModels text requestId prompt oracle times rest st
    else
      let r := st.breaker.call (times st.breakerCalls)
        (_extract_with_retry oracle modelId) st.calls
      let st2 := { st with
        breaker := r.2
        calls := r.1.2
        breakerCalls := st.breakerCalls + 1 }
      match r.1.1 with
      | .error _ => tryModels text requestId prompt oracle times rest st2
      | .ok result =>
        match result.extractions with
        | none => tryModels text requestId prompt oracle times rest st2
        | some exts =>
          if exts.isEmpty then
            tryModels text requestId prompt oracle times rest st2
          else
            let method := "llm_" ++ pyReplace modelId "gemini-1.5-" ""
            let st3 := { st2 with costs := st2.costs ++ [(requestId, prompt, modelId)] }
            (some (exts, method, modelId), st3)

/-- The value returned by `extract_claims_with_fallback`, together with the
final value of its `successful_model` local. -/
structure ExtractOutput where
  extractions : List Extraction
  method : String
  successful_model : Option String
deriving DecidableEq

/-- `extract_claims_with_fallback`. The prompt configuration returned by
`prompt_manager.get_prompt_config` is passed in as `prompt` and
`selectedModel`; the external `lx.extract` behaviour is the `oracle` and the
clock at each breaker-guarded call is `times`. The result is an `Except` so
that an escaping exception would be visible to the caller. -/
def extract_claims_with_fallback (text requestId prompt selectedModel : String)
    (oracle : Nat → LXOutcome) (times : Nat → Nat) (st : OrchState) :
    Except PyErr ExtractOutput × OrchState :=
  let models_to_try := [selectedModel] ++
    (if selectedModel = GEMINI_PRO then [GEMINI_FLASH] else [GEMINI_PRO])
  match tryModels text requestId prompt oracle times models_to_try st with
  | (some (exts, method, m), st2) => (.ok ⟨exts, method, some m⟩, st2)
  | (none, st2) =>
    let fallback_claims := fallback_claim_search text
    let exts := fallback_claims.map (fun c =>
      ({ extraction_text := c.text, confidence := c.confidence_score,
         spans := none } : Extraction))
    (.ok ⟨exts, "regex_fallback", none⟩, st2)

/-- The classifier's precedence chain, in source order, paired with the
match predicate each arm applies to the lowered text. -/
def classifyPrecedence : List (ClaimType × (String → Bool)) :=
  [(.INDICATION, fun s => ClaimValidator.indication_re.search s),
   (.CONTRAINDICATION, fun s => ClaimValidator.contraindication_re.search s),
   (.DOSING, fun s => ClaimValidator.dosing_re.search s),
   (.SAFETY, fun s => ClaimValidator.safety_re.search s),
   (.COMPARATIVE, fun s => ClaimValidator.comparative_patterns.any (fun p => p.search s)),
   (.PHARMACOKINETIC, fun s => ClaimValidator.pharmacokinetic_re.search s),
   (.MECHANISM, fun s => ClaimValidator.mechanism_re.search s),
   (.EFFICACY, fun s => ClaimValidator.efficacy_re.search s)]

/-- An oracle on which every external extraction call raises a transient
(non-`ValueError`) exception. -/
def oracleAllTransient : Nat → LXOutcome := fun _ => .raiseOther

/-- An oracle on which every external extraction call raises the
empty-tokens `ValueError` that `langextract` produces for degenerate input. -/
def oracleAllEmptyVE : Nat → LXOutcome :=
  fun _ => .valueError "Source tokens and extraction tokens cannot be empty."

/-- A sample extraction record for successful-oracle scenarios. -/
def sampleExtraction : Extraction :=
  { extraction_text := "Drug X reduced symptoms by 50%", confidence := (95 : Rat) / 100 }

/-- An oracle on which every external extraction call succeeds with one record. -/
def oracleAlwaysOk : Nat → LXOutcome := fun _ => .ok ⟨some [sampleExtraction]⟩

/-- A constant clock for scenarios where elapsed time is irrelevant. -/
def timesConst : Nat → Nat := fun _ => 1000

/-- A wrapped function that always raises, driving breaker failure paths. -/
def failingFunc : Unit → Except PyErr Unit × Unit := fun s => (.error .otherError, s)

/-- The breaker after one failing guarded call at time `now`. -/
def failStep (now : Nat) (cb : CircuitBreaker) : CircuitBreaker :=
  (cb.call now failingFunc ()).2

/-- The breaker after consecutive failing guarded calls at the given times. -/
def failMany (ts : List Nat) (cb : CircuitBreaker) : CircuitBreaker :=
  ts.foldl (fun c t => failStep t c) cb

/-- A fresh breaker with the given threshold and timeout. -/
def freshBreaker (n r : Nat) : CircuitBreaker :=
  { failure_threshold := n, recovery_timeout := r }

/-- A wrapped function that succeeds with `42`. -/
def constOkFunc : Unit → Except PyErr Nat × Unit := fun s => (.ok 42, s)

/-- A wrapped function that raises a transient error. -/
def constErrFunc : Unit → Except PyErr Nat × Unit := fun s => (.error .otherError, s)

/-- A tripped breaker (threshold reached at time 6) for trial-call scenarios. -/
def openBreakerSample : CircuitBreaker :=
  { failure_threshold := 2, recovery_timeout := 300, failure_count := 2,
    last_failure_time := some 6, state := .opened }

/-! Theorems. -/

/-- C1: for every input string, the verdict of `validate_claim` satisfies
`is_valid = is_complete AND is_about_drug AND requires_evidence AND
word_count >= 4` (the threshold the source fixes, one of the two tunable
values 4 and 5 the spec admits): a conjunctive gate, so any single failing
test forces `is_valid = false` whatever the other signals. -/
theorem claim1_validity_is_conjunctive_gate (text : String) :
    (ClaimValidator.validate_claim text).is_valid =
      ((ClaimValidator.validate_claim text).is_complete
        && (ClaimValidator.validate_claim text).is_about_drug
        && (ClaimValidator.validate_claim text).requires_evidence
        && decide (wordCount text ≥ 4)) := rfl

/-- C6 (divergence witness): on the literal input
`"increase in AUCinf and a 56%"` the code returns `is_valid = false`, but
its warning list is exactly `[MISSING_VERB, NO_DRUG_MENTION, TOO_TRIVIAL]`
and contains neither `INCOMPLETE_SENTENCE` nor `FRAGMENT`, contradicting
the claim (and the repository's own test `test_fragment_incomplete_sentence`). -/
theorem claim6_warnings_lack_incomplete_and_fragment :
    (ClaimValidator.validate_claim "increase in AUCinf and a 56%").is_valid = false
    ∧ (ClaimValidator.validate_claim "increase in AUCinf and a 56%").warnings
        = [.MISSING_VERB, .NO_DRUG_MENTION, .TOO_TRIVIAL]
    ∧ ¬ (ValidationWarning.INCOMPLETE_SENTENCE
          ∈ (ClaimValidator.validate_claim "increase in AUCinf and a 56%").warnings
        ∨ ValidationWarning.FRAGMENT
          ∈ (ClaimValidator.validate_claim "increase in AUCinf and a 56%").warnings) := by
  decide

/-- C10: `validate_claim` is a total function of the input string (the
embedding is a total Lean function, mirroring that no code path raises),
and on the empty string it returns an invalid verdict with no subject, no
completeness, and word count 0. -/
theorem claim10_empty_string_verdict :
    (ClaimValidator.validate_claim "").is_valid = false
    ∧ (ClaimValidator.validate_claim "").has_subject = false
    ∧ (ClaimValidator.validate_claim "").is_complete = false
    ∧ wordCount "" = 0 := by
  decide

/-- C7: `classify_claim_type` is deterministic first-match-wins over the
fixed precedence sequence INDICATION → CONTRAINDICATION → DOSING → SAFETY →
COMPARATIVE → PHARMACOKINETIC → MECHANISM → EFFICACY, returning `none` when
no arm matches the lowered text. -/
theorem claim7_classifier_first_match_wins (text : String) :
    ClaimValidator.classify_claim_type text =
      classifyPrecedence.findSome?
        (fun p => if p.2 (pyLower text) then some p.1 else none) := by
  simp only [ClaimValidator.classify_claim_type, classifyPrecedence]
  cases h1 : ClaimValidator.indication_re.search (pyLower text) <;>
  cases h2 : ClaimValidator.contraindication_re.search (pyLower text) <;>
  cases h3 : ClaimValidator.dosing_re.search (pyLower text) <;>
  cases h4 : ClaimValidator.safety_re.search (pyLower text) <;>
  cases h5 : ClaimValidator.comparative_patterns.any (fun p => p.search (pyLower text)) <;>
  cases h6 : ClaimValidator.pharmacokinetic_re.search (pyLower text) <;>
  cases h7 : ClaimValidator.mechanism_re.search (pyLower text) <;>
  cases h8 : ClaimValidator.efficacy_re.search (pyLower text) <;>
  simp [h1, h2, h3, h4, h5, h6, h7, h8, List.findSome?]

theorem failStep_closed (now : Nat) (cb : CircuitBreaker) (h : cb.state = .closed) :
    failStep now cb = { cb with
      failure_count := cb.failure_count + 1
      last_failure_time := some now
      state := if cb.failure_count + 1 ≥ cb.failure_threshold then .opened
               else .closed } := by
  simp only [failStep, CircuitBreaker.call, failingFunc, h]
  split <;> simp_all

theorem failMany_stays_closed (ts : List Nat) (cb : CircuitBreaker)
    (hstate : cb.state = .closed)
    (hlt : cb.failure_count + ts.length < cb.failure_threshold) :
    (failMany ts cb).state = .closed
    ∧ (failMany ts cb).failure_count = cb.failure_count + ts.length
    ∧ (failMany ts cb).failure_threshold = cb.failure_threshold := by
  induction ts generalizing cb with
  | nil => simp [failMany, hstate]
  | cons t ts ih =>
    have hstep := failStep_closed t cb hstate
    have hcond : ¬ (cb.failure_count + 1 ≥ cb.failure_threshold) := by
      simp at hlt ⊢
      omega
    have hfold : failMany (t :: ts) cb = failMany ts (failStep t cb) := rfl
    rw [hfold, hstep]
    simp only [if_neg hcond]
    have h2 := ih { cb with
      failure_count := cb.failure_count + 1
      last_failure_time := some t
      state := .closed } rfl (by simp at hlt ⊢; omega)
    refine ⟨h2.1, ?_, ?_⟩
    · have h3 := h2.2.1
      simp at h3 ⊢
      omega
    · simpa using h2.2.2

theorem failMany_reaches_open (ts : List Nat) (cb : CircuitBreaker)
    (hstate : cb.state = .closed) (hne : ts ≠ [])
    (hn : cb.failure_count + ts.length = cb.failure_threshold) :
    (failMany ts cb).state = .opened
    ∧ (failMany ts cb).failure_count = cb.failure_threshold := by
  induction ts generalizing cb with
  | nil => exact absurd rfl hne
  | cons t ts ih =>
    have hstep := failStep_closed t cb hstate
    have hfold : failMany (t :: ts) cb = failMany ts (failStep t cb) := rfl
    by_cases hts : ts = []
    · subst hts
      simp at hn
      have hcond : cb.failure_count + 1 ≥ cb.failure_threshold := by omega
      rw [hfold, hstep]
      simp [failMany, if_pos hcond]
      omega
    · have hcond : ¬ (cb.failure_count + 1 ≥ cb.failure_threshold) := by
        have : ts.length ≥ 1 := by
          cases ts with
          | nil => exact absurd rfl hts
          | cons a l => simp
        simp at hn ⊢
        omega
      rw [hfold, hstep]
      simp only [if_neg hcond]
      have h2 := ih { cb with
        failure_count := cb.failure_count + 1
        last_failure_time := some t
        state := .closed } rfl hts (by simp at hn ⊢; omega)
      simpa using h2

/-- C3: the `CircuitBreaker` state machine. (i) From a fresh breaker,
`failure_threshold` consecutive failing calls leave the state OPEN with
`failure_count = failure_threshold`. (ii) While OPEN and within
`recovery_timeout` of `last_failure_time`, a call is rejected with the
circuit-open error, the wrapped function is not invoked, and the breaker is
unchanged. (iii) Once strictly more than `recovery_timeout` has elapsed,
the next call runs the wrapped function as the single HALF_OPEN trial: a
success yields CLOSED with `failure_count` reset to 0. (iv) A failing trial
returns to OPEN with `failure_count` incremented and `last_failure_time`
refreshed to the trial time (so by (ii) the subsequent call within the new
timeout window is again rejected). -/
theorem claim3_circuit_breaker_state_machine :
    (∀ (n r : Nat) (ts : List Nat), 1 ≤ n → ts.length = n →
      (failMany ts (freshBreaker n r)).state = .opened
      ∧ (failMany ts (freshBreaker n r)).failure_count = n)
    ∧ (∀ (cb : CircuitBreaker) (now t : Nat), cb.state = .opened →
        cb.last_failure_time = some t → now - t ≤ cb.recovery_timeout →
        ∀ (σ α : Type) (func : σ → Except PyErr α × σ) (s : σ),
          cb.call now func s = ((.error .circuitOpenError, s), cb))
    ∧ (∀ (cb : CircuitBreaker) (now t : Nat), cb.state = .opened →
        cb.last_failure_time = some t → 0 < t →
        cb.recovery_timeout < now - t →
        ∀ (σ α : Type) (func : σ → Except PyErr α × σ) (s : σ) (a : α) (s2 : σ),
          func s = (.ok a, s2) →
          cb.call now func s =
            ((.ok a, s2), { cb with state := .closed, failure_count := 0 }))
    ∧ (∀ (cb : CircuitBreaker) (now t : Nat), cb.state = .opened →
        cb.last_failure_time = some t → 0 < t →
        cb.recovery_timeout < now - t →
        cb.failure_threshold ≤ cb.failure_count →
        ∀ (σ α : Type) (func : σ → Except PyErr α × σ) (s : σ) (e : PyErr) (s2 : σ),
          func s = (.error e, s2) →
          cb.call now func s =
            ((.error e, s2), { cb with
                state := .opened
                failure_count := cb.failure_count + 1
                last_failure_time := some now })) := by
  refine ⟨?_, ?_, ?_, ?_⟩
  · intro n r ts hn hlen
    have h := failMany_reaches_open ts (freshBreaker n r) rfl
      (by intro h; subst h; simp at hlen; omega)
      (by simpa [freshBreaker] using hlen)
    simpa [freshBreaker] using h
  · intro cb now t hstate hlft helapsed σ α func s
    simp only [CircuitBreaker.call, hstate, hlft, Option.any_some, Bool.and_eq_true,
      decide_eq_true_eq]
    have hc : ¬ (¬t = 0 ∧ cb.recovery_timeout < now - t) := by
      intro hcon
      obtain ⟨h1, h2⟩ := hcon
      omega
    simp [hc]
  · intro cb now t hstate hlft ht helapsed σ α func s a s2 hfunc
    simp only [CircuitBreaker.call, hstate, hlft, Option.any_some, Bool.and_eq_true,
      decide_eq_true_eq]
    have ht2 : ¬ t = 0 := by omega
    simp [ht2, helapsed, hfunc, hlft]
  · intro cb now t hstate hlft ht helapsed hthr σ α func s e s2 hfunc
    simp only [CircuitBreaker.call, hstate, hlft, Option.any_some, Bool.and_eq_true,
      decide_eq_true_eq]
    have ht2 : ¬ t = 0 := by omega
    have hcond : cb.failure_threshold ≤ cb.failure_count + 1 := by omega
    simp [ht2, helapsed, hfunc, hcond]

/-- Witness for C3: a threshold-2 breaker opens after two failures at times
5 and 6; at time 100 (within the 300 s window) a call is rejected leaving
the breaker unchanged; at time 400 a successful trial closes it and resets
the count; at time 400 a failing trial re-opens it with the count bumped
and the failure time refreshed. -/
theorem claim3_circuit_breaker_state_machine_witness :
    ((failMany [5, 6] (freshBreaker 2 300)).state = .opened
      ∧ (failMany [5, 6] (freshBreaker 2 300)).failure_count = 2)
    ∧ (openBreakerSample.call 100 constOkFunc ()
        = ((.error .circuitOpenError, ()), openBreakerSample))
    ∧ (openBreakerSample.call 400 constOkFunc ()
        = ((.ok 42, ()),
           { openBreakerSample with state := .closed, failure_count := 0 }))
    ∧ (openBreakerSample.call 400 constErrFunc ()
        = ((.error .otherError, ()),
           { openBreakerSample with
              state := .opened
              failure_count := 3
              last_failure_time := some 400 })) :=
  ⟨claim3_circuit_breaker_state_machine.1 2 300 [5, 6] (by decide) (by decide),
   claim3_circuit_breaker_state_machine.2.1 openBreakerSample 100 6 rfl rfl
     (by decide) Unit Nat constOkFunc (),
   claim3_circuit_breaker_state_machine.2.2.1 openBreakerSample 400 6 rfl rfl
     (by decide) (by decide) Unit Nat constOkFunc () 42 () rfl,
   claim3_circuit_breaker_state_machine.2.2.2 openBreakerSample 400 6 rfl rfl
     (by decide) (by decide) (by decide) Unit Nat constErrFunc () .otherError () rfl⟩

/-- C2 (counterexample): on the whitespace-only input `"   "` the function
returns normally with the regex-fallback result and an untouched state — the
internally raised input `ValueError` is not surfaced to the caller, contrary
to the claim. (That no external call is made and no retry is consumed shows
in the unchanged state.) -/
theorem claim2_counterexample_empty_input_not_surfaced :
    extract_claims_with_fallback "   " "req-1" "prompt-text" GEMINI_FLASH
        oracleAllTransient timesConst initialOrchState
      = (.ok ⟨[], "regex_fallback", none⟩, initialOrchState)
    ∧ ∀ (e : PyErr),
      (extract_claims_with_fallback "   " "req-1" "prompt-text" GEMINI_FLASH
        oracleAllTransient timesConst initialOrchState).1 ≠ .error e := by
  constructor
  · rfl
  · intro e hcon
    have h1 : (extract_claims_with_fallback "   " "req-1" "prompt-text" GEMINI_FLASH
        oracleAllTransient timesConst initialOrchState).1
        = .ok ⟨[], "regex_fallback", none⟩ := rfl
    rw [h1] at hcon
    exact Except.noConfusion hcon

theorem tryModels_empty_text_skips_all (text requestId prompt : String)
    (oracle : Nat → LXOutcome) (times : Nat → Nat)
    (h : pyStrip text = "") :
    ∀ (models : List String) (st : OrchState),
      tryModels text requestId prompt oracle times models st = (none, st) := by
  intro models
  induction models with
  | nil => intro st; rfl
  | cons m ms ih => intro st; simp [tryModels, h, ih]

/-- C2 (amended): for every empty or whitespace-only input,
`extract_claims_with_fallback` makes no external extraction call and
consumes no retry (the threaded state — call log, waits, breaker, cost
records — is returned untouched), but the empty-input `ValueError` it
raises per model is swallowed by the per-model `except Exception` handler:
the caller receives the regex fallback result (method `"regex_fallback"`,
an empty candidate list) as a normal return value, not an input error. -/
theorem claim2_empty_input_no_call_but_absorbed
    (text requestId prompt selectedModel : String)
    (oracle : Nat → LXOutcome) (times : Nat → Nat) (st : OrchState)
    (h : pyStrip text = "") :
    extract_claims_with_fallback text requestId prompt selectedModel oracle times st
      = (.ok ⟨(fallback_claim_search text).map (fun c =>
            { extraction_text := c.text, confidence := c.confidence_score,
              spans := none }), "regex_fallback", none⟩, st) := by
  simp only [extract_claims_with_fallback]
  rw [tryModels_empty_text_skips_all text requestId prompt oracle times h
    ([selectedModel] ++
      (if selectedModel = GEMINI_PRO then [GEMINI_FLASH] else [GEMINI_PRO])) st]

/-- Witness for the amended C2 at the concrete whitespace input `" \n\t "`. -/
theorem claim2_empty_input_no_call_but_absorbed_witness :
    pyStrip " \n\t " = ""
    ∧ extract_claims_with_fallback " \n\t " "req-1" "prompt-text" GEMINI_PRO
        oracleAllTransient timesConst initialOrchState
      = (.ok ⟨[], "regex_fallback", none⟩, initialOrchState) :=
  ⟨rfl,
   (claim2_empty_input_no_call_but_absorbed " \n\t " "req-1" "prompt-text"
      GEMINI_PRO oracleAllTransient timesConst initialOrchState rfl).trans (by rfl)⟩

/-- C4: (i) `extract_claims_with_fallback` never raises — on every input and
every oracle behaviour it returns an `ok` value; (ii) whenever the model
loop exhausts the two-element chain without producing candidates, the
returned value is exactly the deterministic regex fallback result: the
`MockExtraction`-converted list of `fallback_claim_search` (possibly empty),
tagged `method = "regex_fallback"`. -/
theorem claim4_total_failure_degrades_to_regex_fallback :
    (∀ (text requestId prompt selectedModel : String) (oracle : Nat → LXOutcome)
        (times : Nat → Nat) (st : OrchState),
      ∃ (out : ExtractOutput) (st2 : OrchState),
        extract_claims_with_fallback text requestId prompt selectedModel oracle times st
          = (.ok out, st2))
    ∧ (∀ (text requestId prompt selectedModel : String) (oracle : Nat → LXOutcome)
        (times : Nat → Nat) (st st2 : OrchState),
      tryModels text requestId prompt oracle times
          ([selectedModel] ++
            (if selectedModel = GEMINI_PRO then [GEMINI_FLASH] else [GEMINI_PRO])) st
        = (none, st2) →
      extract_claims_with_fallback text requestId prompt selectedModel oracle times st
        = (.ok ⟨(fallback_claim_search text).map (fun c =>
              { extraction_text := c.text, confidence := c.confidence_score,
                spans := none }), "regex_fallback", none⟩, st2)) := by
  constructor
  · intro text rq pr sel oracle times st
    simp only [extract_claims_with_fallback]
    rcases htm : tryModels text rq pr oracle times
        ([sel] ++ (if sel = GEMINI_PRO then [GEMINI_FLASH] else [GEMINI_PRO])) st
      with ⟨first, st2⟩
    cases first with
    | none => exact ⟨_, _, rfl⟩
    | some triple =>
      obtain ⟨exts, method, m⟩ := triple
      exact ⟨_, _, rfl⟩
  · intro text rq pr sel oracle times st st2 h
    simp only [extract_claims_with_fallback]
    rw [h]

/-- Witness for C4 at a concrete input on which both models keep failing
transiently: the result is the (here empty) regex fallback with the
post-loop state. -/
theorem claim4_total_failure_degrades_to_regex_fallback_witness :
    extract_claims_with_fallback "zzz" "req-1" "prompt-text" GEMINI_FLASH
        oracleAllTransient timesConst initialOrchState
      = (.ok ⟨[], "regex_fallback", none⟩,
         (tryModels "zzz" "req-1" "prompt-text" oracleAllTransient timesConst
            ([GEMINI_FLASH] ++
              (if GEMINI_FLASH = GEMINI_PRO then [GEMINI_FLASH] else [GEMINI_PRO]))
            initialOrchState).2) :=
  (claim4_total_failure_degrades_to_regex_fallback.2 "zzz" "req-1" "prompt-text"
    GEMINI_FLASH oracleAllTransient timesConst initialOrchState
    (tryModels "zzz" "req-1" "prompt-text" oracleAllTransient timesConst
      ([GEMINI_FLASH] ++
        (if GEMINI_FLASH = GEMINI_PRO then [GEMINI_FLASH] else [GEMINI_PRO]))
      initialOrchState).2 (by rfl)).trans (by rfl)

theorem tryModels_costs_spec (text rq pr : String) (oracle : Nat → LXOutcome)
    (times : Nat → Nat) :
    ∀ (models : List String) (st : OrchState),
      ((tryModels text rq pr oracle times models st).1 = none →
        (tryModels text rq pr oracle times models st).2.costs = st.costs)
      ∧ (∀ exts method m,
          (tryModels text rq pr oracle times models st).1 = some (exts, method, m) →
          (tryModels text rq pr oracle times models st).2.costs
              = st.costs ++ [(rq, pr, m)]
            ∧ method = "llm_" ++ pyReplace m "gemini-1.5-" "") := by
  intro models
  induction models with
  | nil =>
    intro st
    exact ⟨fun _ => rfl, fun exts method m h => Option.noConfusion h⟩
  | cons m ms ih =>
    intro st
    simp only [tryModels]
    split
    · exact ih _
    · split
      · exact ih _
      · split
        · exact ih _
        · split
          · exact ih _
          · constructor
            · intro h
              exact Option.noConfusion h
            · intro exts2 method2 m2 h
              injection h with h1
              cases h1
              exact ⟨rfl, rfl⟩

/-- C8: the cost/usage recorder is invoked exactly once per extraction that
succeeds through a model — with that request id, prompt text and the
succeeding model id, before `extract` returns — and never when the result
comes from the regex fallback. -/
theorem claim8_cost_recorded_once_per_model_success
    (text rq pr sel : String) (oracle : Nat → LXOutcome) (times : Nat → Nat)
    (st st2 : OrchState) (out : ExtractOutput)
    (h : extract_claims_with_fallback text rq pr sel oracle times st = (.ok out, st2)) :
    (∀ m, out.successful_model = some m →
        st2.costs = st.costs ++ [(rq, pr, m)]
        ∧ out.method = "llm_" ++ pyReplace m "gemini-1.5-" "")
    ∧ (out.successful_model = none →
        st2.costs = st.costs ∧ out.method = "regex_fallback") := by
  have hspec := tryModels_costs_spec text rq pr oracle times
    ([sel] ++ (if sel = GEMINI_PRO then [GEMINI_FLASH] else [GEMINI_PRO])) st
  simp only [extract_claims_with_fallback] at h
  rcases htm : tryModels text rq pr oracle times
      ([sel] ++ (if sel = GEMINI_PRO then [GEMINI_FLASH] else [GEMINI_PRO])) st
    with ⟨first, stm⟩
  rw [htm] at h hspec
  cases first with
  | none =>
    injection h with hA hB
    injection hA with hC
    subst hB
    subst hC
    constructor
    · intro m hm
      exact Option.noConfusion hm
    · intro _
      exact ⟨hspec.1 rfl, rfl⟩
  | some triple =>
    obtain ⟨exts, method, m⟩ := triple
    injection h with hA hB
    injection hA with hC
    subst hB
    subst hC
    have h2 := hspec.2 exts method m rfl
    constructor
    · intro m2 hm
      injection hm with hm2
      subst hm2
      exact h2
    · intro hm
      exact Option.noConfusion hm

/-- Witness for C8: with a first-call-succeeds oracle and the pro model
selected, exactly one cost record `(request, prompt, model)` is appended
and the method tag names the succeeding model. -/
theorem claim8_cost_recorded_once_per_model_success_witness :
    ((extract_claims_with_fallback "sample" "req-1" "prompt-text" GEMINI_PRO
        oracleAlwaysOk timesConst initialOrchState).2).costs
      = initialOrchState.costs ++ [("req-1", "prompt-text", GEMINI_PRO)]
    ∧ "llm_pro" = "llm_" ++ pyReplace GEMINI_PRO "gemini-1.5-" "" :=
  (claim8_cost_recorded_once_per_model_success "sample" "req-1" "prompt-text"
    GEMINI_PRO oracleAlwaysOk timesConst initialOrchState
    (extract_claims_with_fallback "sample" "req-1" "prompt-text" GEMINI_PRO
        oracleAlwaysOk timesConst initialOrchState).2
    ⟨[sampleExtraction], "llm_pro", some GEMINI_PRO⟩ (by rfl)).1 GEMINI_PRO rfl

theorem retry_transient_exhausts (modelId : String) (oracle : Nat → LXOutcome)
    (st : CallLog) (ho : ∀ k, k < 3 → oracle (st.log.length + k) = .raiseOther) :
    _extract_with_retry oracle modelId st
      = (.error .retryError,
         { log := st.log ++ [modelId, modelId, modelId],
           waits := st.waits ++ [tenacityWait 1, tenacityWait 2] }) := by
  have h0 : oracle st.log.length = .raiseOther := by simpa using ho 0 (by omega)
  have h1 : oracle (st.log.length + 1) = .raiseOther := ho 1 (by omega)
  have h2 : oracle (st.log.length + 2) = .raiseOther := ho 2 (by omega)
  simp [_extract_with_retry, retryAttempts, lxAttempt, h0, h1, h2, PyErr.isValueError,
    List.append_assoc]

theorem retry_valueError_fail_fast (modelId : String) (oracle : Nat → LXOutcome)
    (st : CallLog) (msg : String) (h : oracle st.log.length = .valueError msg) :
    ∃ e : PyErr, e.isValueError = true
      ∧ _extract_with_retry oracle modelId st
        = (.error e, { st with log := st.log ++ [modelId] }) := by
  by_cases hc : (strContains (pyLower msg) "empty"
      || strContains (pyLower msg) "token") = true
  · exact ⟨.valueError ("Empty LLM response from " ++ modelId), rfl, by
      simp [_extract_with_retry, retryAttempts, lxAttempt, h, hc, PyErr.isValueError]⟩
  · exact ⟨.valueError msg, rfl, by
      simp at hc
      simp [_extract_with_retry, retryAttempts, lxAttempt, h, hc, PyErr.isValueError]⟩

/-- C5: the retry policy of the orchestrator. (i) Transient (non-ValueError)
failures are retried up to the fixed cap of 3 attempts, sleeping the
tenacity exponential-backoff wait (`max(4, min(2^attempt, 10))` seconds)
between attempts, and then raise `RetryError`. (ii) A `ValueError` — the
semantically-empty-response class — is never retried for that model: the
call returns after exactly one external attempt with a `ValueError`.
(iii) Consequently, when the first model of the two-element chain raises a
`ValueError` and the second does too, each model is attempted exactly once
(call log `[flash, pro]`, no backoff waits) and only then is the
deterministic regex fallback used, with no cost recorded. -/
theorem claim5_retry_policy :
    (∀ (modelId : String) (oracle : Nat → LXOutcome) (st : CallLog),
      (∀ k, k < 3 → oracle (st.log.length + k) = .raiseOther) →
      _extract_with_retry oracle modelId st
        = (.error .retryError,
           { log := st.log ++ [modelId, modelId, modelId],
             waits := st.waits ++ [tenacityWait 1, tenacityWait 2] }))
    ∧ (∀ (modelId : String) (oracle : Nat → LXOutcome) (st : CallLog) (msg : String),
      oracle st.log.length = .valueError msg →
      ∃ e : PyErr, e.isValueError = true
        ∧ _extract_with_retry oracle modelId st
          = (.error e, { st with log := st.log ++ [modelId] }))
    ∧ (∀ (text rq pr msgA msgB : String) (oracle : Nat → LXOutcome) (times : Nat → Nat),
      (text = "" || pyStrip text = "") = false →
      oracle 0 = .valueError msgA →
      oracle 1 = .valueError msgB →
      ∃ st2 : OrchState,
        extract_claims_with_fallback text rq pr GEMINI_FLASH oracle times initialOrchState
          = (.ok ⟨(fallback_claim_search text).map (fun c =>
                { extraction_text := c.text, confidence := c.confidence_score,
                  spans := none }), "regex_fallback", none⟩, st2)
        ∧ st2.calls.log = [GEMINI_FLASH, GEMINI_PRO]
        ∧ st2.calls.waits = []
        ∧ st2.costs = []) := by
  refine ⟨retry_transient_exhausts, retry_valueError_fail_fast, ?_⟩
  intro text rq pr msgA msgB oracle times hne h0 h1
  have htm : tryModels text rq pr oracle times [GEMINI_FLASH, GEMINI_PRO]
      initialOrchState
      = (none,
         { breaker := { failure_threshold := 3, recovery_timeout := 300, failure_count := 2, last_failure_time := some (times 1), state := .closed }, calls := { log := [GEMINI_FLASH, GEMINI_PRO], waits := [] }, costs := [], breakerCalls := 2 }) := by
    by_cases hcA : (strContains (pyLower msgA) "empty"
        || strContains (pyLower msgA) "token") = true <;>
    by_cases hcB : (strContains (pyLower msgB) "empty"
        || strContains (pyLower msgB) "token") = true <;>
    simp [tryModels, CircuitBreaker.call, _extract_with_retry, retryAttempts,
      lxAttempt, initialOrchState, llm_circuit_breaker, h0, h1, hne, hcA, hcB,
      PyErr.isValueError]
  refine ⟨{ breaker := { failure_threshold := 3, recovery_timeout := 300, failure_count := 2, last_failure_time := some (times 1), state := .closed }, calls := { log := [GEMINI_FLASH, GEMINI_PRO], waits := [] }, costs := [], breakerCalls := 2 }, ?_, rfl, rfl, rfl⟩
  simp only [extract_claims_with_fallback]
  rw [show ([GEMINI_FLASH] ++
      (if GEMINI_FLASH = GEMINI_PRO then [GEMINI_FLASH] else [GEMINI_PRO]))
      = [GEMINI_FLASH, GEMINI_PRO] from by decide]
  rw [htm]

/-- Witness for C5: a transient-failing oracle is attempted 3 times with
backoff waits `[4, 4]`; the empty-tokens `ValueError` oracle is attempted
exactly once; and with both models raising it, the call log is
`[flash, pro]` — the second model was attempted — before the (here empty)
regex fallback is returned. -/
theorem claim5_retry_policy_witness :
    (_extract_with_retry oracleAllTransient "model-a" {}
       = (.error .retryError,
          { log := ["model-a", "model-a", "model-a"], waits := [4, 4] }))
    ∧ (∃ e : PyErr, e.isValueError = true
        ∧ _extract_with_retry oracleAllEmptyVE "model-b" {}
          = (.error e, { log := ["model-b"], waits := [] }))
    ∧ (∃ st2 : OrchState,
        extract_claims_with_fallback "plain text" "req-1" "prompt-text" GEMINI_FLASH
            oracleAllEmptyVE timesConst initialOrchState
          = (.ok ⟨[], "regex_fallback", none⟩, st2)
        ∧ st2.calls.log = [GEMINI_FLASH, GEMINI_PRO]
        ∧ st2.calls.waits = []
        ∧ st2.costs = []) := by
  refine ⟨claim5_retry_policy.1 "model-a" oracleAllTransient {} (by decide), ?_, ?_⟩
  · obtain ⟨e, hv, he⟩ := claim5_retry_policy.2.1 "model-b" oracleAllEmptyVE {}
      "Source tokens and extraction tokens cannot be empty." rfl
    exact ⟨e, hv, he⟩
  · obtain ⟨st2, hA, hB, hC, hD⟩ := claim5_retry_policy.2.2 "plain text" "req-1"
      "prompt-text" "Source tokens and extraction tokens cannot be empty."
      "Source tokens and extraction tokens cannot be empty."
      oracleAllEmptyVE timesConst (by decide) rfl rfl
    exact ⟨st2, hA, hB, hC, hD⟩

end PromoPack
